import Mathlib

/-!
Malawi School Reporting System: the helpers of `static/js/app.js`.

A shallow embedding of the browser-side helpers of `static/js/app.js` and the
properties of them that the specification states.

Modelling conventions.

* The DOM is mutable; every function below takes the part of the page it reads
  and returns the part it wrote (explicit state passing).
* What the browser computes is given, not computed: the element a lookup by id
  returns and the list a document-wide query returns (these calls are taken to
  return), the names a form exposes as properties, what `innerHTML` and
  `value` read back after an assignment, what `fetch` and the body readers
  settle to.  Each is a field or an argument of the model, documented where it
  is declared.
* Code of the page outside `app.js` (inline handlers, listeners of other
  scripts) is not part of the embedding.
* `classList` is a `DOMTokenList`: an ordered set of tokens.  It is a
  `List String`; `add` appends a token that is not yet there, `remove` deletes
  every occurrence, `contains` is membership.
* Strings are Lean strings.  `String.prototype.trim` strips the ECMAScript
  `WhiteSpace` and `LineTerminator` code points from both ends.
* `forEach` over a static `NodeList` is a left-to-right pass over a list; the
  callbacks of this file only write to the element they are called on.
-/

namespace App

/-! ## JavaScript strings -/

/-- ECMAScript `WhiteSpace` (TAB, VT, FF, SP, NBSP, ZWNBSP and the Unicode
space separators) and `LineTerminator` (LF, CR, LS, PS) code points. -/
def isJsWhiteSpace (c : Char) : Bool :=
  let n := c.toNat
  n == 0x09 || n == 0x0A || n == 0x0B || n == 0x0C || n == 0x0D || n == 0x20 ||
  n == 0xA0 || n == 0x1680 || (0x2000 ≤ n && n ≤ 0x200A) || n == 0x2028 ||
  n == 0x2029 || n == 0x202F || n == 0x205F || n == 0x3000 || n == 0xFEFF

/-- The method `String.prototype.trim`. -/
def jsTrim (s : String) : String :=
  ⟨((s.data.dropWhile isJsWhiteSpace).reverse.dropWhile isJsWhiteSpace).reverse⟩

/-- JavaScript truthiness of a string: every string but the empty one. -/
def truthyStr (s : String) : Bool := s != ""

/-! ## Elements and class lists -/

/-- The method `DOMTokenList.add` for one token. -/
def classAdd (cls : List String) (tok : String) : List String :=
  if tok ∈ cls then cls else cls ++ [tok]

/-- The method `DOMTokenList.remove` for one token. -/
def classRemove (cls : List String) (tok : String) : List String :=
  cls.filter (fun c => c != tok)

/-- An element below a form, with the attributes and properties the helpers
read or write.  `tagName` is the lower-case local name; `required` is the
presence of the `required` attribute; `defaultValue` is the value the control
has after `form.reset()`. -/
structure Element where
  tagName : String
  id : String
  required : Bool
  value : String
  defaultValue : String
  classList : List String
  deriving DecidableEq, Repr

/-- The element a call `document.getElementById(formId)` returned.  `isForm`
says that it is a `form` element, the only kind with a `reset` method.
`named` lists the property names under which a form exposes its controls (the
ids and names of its listed controls and images): such a name shadows the
built-in property of that name; it is empty for an element that is not a
form.  `descendants` are the descendant elements in tree order. -/
structure Target where
  isForm : Bool
  named : List String
  descendants : List Element
  deriving DecidableEq, Repr

/-- A thrown JavaScript error object: constructor name and message. -/
structure JsError where
  name : String
  message : String
  deriving DecidableEq, Repr

/-- The expression `new Error(message)`. -/
def mkError (message : String) : JsError := ⟨"Error", message⟩

/-- The `TypeError` raised by a property access on `null`. -/
def nullAccess (prop : String) : JsError :=
  ⟨"TypeError", "Cannot read properties of null (reading '" ++ prop ++ "')"⟩

/-- The `TypeError` raised by a call of a value that is not a function. -/
def notAFunction (expr : String) : JsError :=
  ⟨"TypeError", expr ++ " is not a function"⟩

/-- The property `prop` of the element is one of the controls of a form, not
the built-in of that name. -/
def shadowed (t : Target) (prop : String) : Bool :=
  t.isForm && t.named.contains prop

/-! ## `validateForm` (lines 36-51) -/

/-- The selector `input[required], select[required]`. -/
def matchesRequiredInputOrSelect (e : Element) : Bool :=
  (e.tagName == "input" || e.tagName == "select") && e.required

/-- The body of the `forEach` callback of `validateForm`, on one selected
input; the flag is `isValid`. -/
def validateInput (isValid : Bool) (input : Element) : Bool × Element :=
  if !truthyStr (jsTrim input.value) then
    (false, { input with classList := classAdd input.classList "is-invalid" })
  else
    (isValid, { input with classList := classRemove input.classList "is-invalid" })

/-- The `forEach` loop of `validateForm` over the descendants of the form:
elements the selector does not match are skipped. -/
def validateInputs : Bool → List Element → Bool × List Element
  | isValid, [] => (isValid, [])
  | isValid, e :: es =>
    if matchesRequiredInputOrSelect e then
      let r := validateInput isValid e
      let rest := validateInputs r.1 es
      (rest.1, r.2 :: rest.2)
    else
      let rest := validateInputs isValid es
      (rest.1, e :: rest.2)

/-- What the loop of `validateForm` does to one descendant. -/
def validatedElement (e : Element) : Element :=
  if matchesRequiredInputOrSelect e then (validateInput true e).2 else e

/-- The function `validateForm(formId)`.  `found` is what
`document.getElementById(formId)` evaluates to, `none` for `null`.  The result
is the element afterwards and how the call ends: the returned flag, or the
`TypeError` of `form.querySelectorAll` on `null` or of a call of a shadowed
`querySelectorAll`. -/
def validateForm (found : Option Target) : Option Target × Except JsError Bool :=
  match found with
  | none => (none, .error (nullAccess "querySelectorAll"))
  | some form =>
    if shadowed form "querySelectorAll" then
      (some form, .error (notAFunction "form.querySelectorAll"))
    else
      let r := validateInputs true form.descendants
      (some { form with descendants := r.2 }, .ok r.1)

/-- A form with an empty required input, a filled required select that
carries `is-invalid`, and an empty optional input that carries `is-valid`. -/
def sampleForm : Target :=
  ⟨true, ["a", "b", "c"], [⟨"input", "a", true, "  ", "", []⟩,
    ⟨"select", "b", true, "x", "", ["is-invalid"]⟩,
    ⟨"input", "c", false, "", "", ["is-valid"]⟩]⟩

/-- A form whose only control, an empty required input with the given class
list, has the id `name`, under which the form exposes it. -/
def shadowingForm (name : String) (classList : List String) : Target :=
  ⟨true, [name], [⟨"input", name, true, "", "", classList⟩]⟩

/-! ## `resetForm` (lines 53-62) -/

/-- The method `form.reset()` on one descendant: a resettable control gets its
default value back, any other element is left alone. -/
def resetControl (e : Element) : Element :=
  if e.tagName == "input" || e.tagName == "select" || e.tagName == "textarea" ||
      e.tagName == "output" then
    { e with value := e.defaultValue }
  else e

/-- The selector `.is-invalid, .is-valid`. -/
def matchesValidityClass (e : Element) : Bool :=
  e.classList.contains "is-invalid" || e.classList.contains "is-valid"

/-- The body of the `forEach` callback of `resetForm`:
`input.classList.remove('is-invalid', 'is-valid')`. -/
def removeValidityClasses (input : Element) : Element :=
  { input with classList := classRemove (classRemove input.classList "is-invalid") "is-valid" }

/-- The `forEach` loop of `resetForm` over the descendants of the form. -/
def clearValidity (es : List Element) : List Element :=
  es.map (fun e => if matchesValidityClass e then removeValidityClasses e else e)

/-- The function `resetForm(formId)`.  `found` is what
`document.getElementById(formId)` evaluates to, `none` for `null`.  The result
is the element afterwards and how the call ends.  `form.reset()` throws a
`TypeError` on `null`, on an element that is not a form (it has no `reset`)
and on a form whose `reset` is shadowed by a control; the later
`form.querySelectorAll` throws when it is shadowed, after the reset has been
done. -/
def resetForm (found : Option Target) : Option Target × Except JsError Unit :=
  match found with
  | none => (none, .error (nullAccess "reset"))
  | some form =>
    if !form.isForm || shadowed form "reset" then
      (some form, .error (notAFunction "form.reset"))
    else
      let afterReset := { form with descendants := form.descendants.map resetControl }
      if shadowed afterReset "querySelectorAll" then
        (some afterReset, .error (notAFunction "form.querySelectorAll"))
      else
        (some { afterReset with descendants := clearValidity afterReset.descendants }, .ok ())

/-! ## `addFormValidation` (lines 133-160) -/

/-- The selector `input, select, textarea`: the descendants of a form that
`addFormValidation` gives a `blur` and an `input` listener. -/
def matchesInputSelectTextarea (e : Element) : Bool :=
  e.tagName == "input" || e.tagName == "select" || e.tagName == "textarea"

/-- The `blur` listener installed by `addFormValidation`. -/
def blurHandler (el : Element) : Element :=
  if el.required then
    if truthyStr (jsTrim el.value) then
      { el with classList := classAdd (classRemove el.classList "is-invalid") "is-valid" }
    else
      { el with classList := classAdd (classRemove el.classList "is-valid") "is-invalid" }
  else el

/-- The `input` listener installed by `addFormValidation`. -/
def inputHandler (el : Element) : Element :=
  if el.classList.contains "is-invalid" && truthyStr (jsTrim el.value) then
    { el with classList := classAdd (classRemove el.classList "is-invalid") "is-valid" }
  else el

/-- An event on a descendant of a form after `addFormValidation` has run: a
`blur` or an `input` event, or an edit of the element's value by the user. -/
inductive FieldEvent where
  | blur
  | input
  | edit (value : String)
  deriving DecidableEq, Repr

/-- What one event does to the element it is dispatched on: the listeners run
only where `addFormValidation` installed them. -/
def fireOn (ev : FieldEvent) (e : Element) : Element :=
  match ev with
  | .blur => if matchesInputSelectTextarea e then blurHandler e else e
  | .input => if matchesInputSelectTextarea e then inputHandler e else e
  | .edit v => { e with value := v }

/-- Applies `f` to the element at position `i`. -/
def modifyAt (f : Element → Element) : Nat → List Element → List Element
  | _, [] => []
  | 0, e :: es => f e :: es
  | i + 1, e :: es => e :: modifyAt f i es

/-- The loop of `addFormValidation`, when it comes to this element, installs
its listeners on the descendants: the element is a form, and its
`querySelectorAll` is the built-in. -/
def hasListeners (form : Target) : Bool :=
  form.isForm && !shadowed form "querySelectorAll"

/-- One step on a form of the page: `validateForm` or `resetForm` with an id
that `getElementById` resolves to the form, or an event on its descendant at
position `elem`. -/
inductive PageOp where
  | validateForm
  | resetForm
  | fire (elem : Nat) (ev : FieldEvent)
  deriving DecidableEq, Repr

/-- Runs one operation on the form and gives the form afterwards. -/
def stepPage (form : Target) : PageOp → Target
  | .validateForm => (validateForm (some form)).1.getD form
  | .resetForm => (resetForm (some form)).1.getD form
  | .fire j (.edit v) => { form with descendants := modifyAt (fireOn (.edit v)) j form.descendants }
  | .fire j ev =>
    if hasListeners form then
      { form with descendants := modifyAt (fireOn ev) j form.descendants }
    else form

/-- Runs a sequence of operations from left to right. -/
def runPage (form : Target) (ops : List PageOp) : Target :=
  ops.foldl stepPage form

/-- The field carries at most one of `is-valid` and `is-invalid`. -/
def atMostOneValidityClass (e : Element) : Bool :=
  !(e.classList.contains "is-valid" && e.classList.contains "is-invalid")

/-! ## `highlightActiveNavItem` (lines 120-130) -/

/-- A `.navbar-nav .nav-link` element: `href` is `getAttribute('href')`,
`none` for `null`. -/
structure NavLink where
  href : Option String
  classList : List String
  deriving DecidableEq, Repr

/-- The body of the `forEach` callback of `highlightActiveNavItem`. -/
def highlightLink (currentPath : String) (link : NavLink) : NavLink :=
  let removed := { link with classList := classRemove link.classList "active" }
  if removed.href == some currentPath then
    { removed with classList := classAdd removed.classList "active" }
  else removed

/-- The function `highlightActiveNavItem()`, given `window.location.pathname`
and the nav links of the page. -/
def highlightActiveNavItem (currentPath : String) (navLinks : List NavLink) : List NavLink :=
  navLinks.map (highlightLink currentPath)

/-! ## `setButtonLoading` (lines 163-179) -/

/-- A button: its markup as `innerHTML` reads it, its `disabled` flag and its
`data-original-text` attribute (`none` when the attribute is absent).
`readBack s` is what `innerHTML` reads after the assignment
`innerHTML = s`: the serialisation of what the fragment parser makes of `s`
inside this button. -/
structure Button where
  innerHTML : String
  disabled : Bool
  dataOriginalText : Option String
  readBack : String → String

/-- The markup shown while loading. -/
def loadingMarkup : String := "<i class=\"fas fa-spinner fa-spin me-2\"></i>Loading..."

/-- The function `setButtonLoading(buttonElement, isLoading, originalText)`;
`originalText` is `none` when the argument is omitted or `null`. -/
def setButtonLoading (buttonElement : Button) (isLoading : Bool)
    (originalText : Option String) : Button :=
  if isLoading then
    let text :=
      match originalText with
      | some t => if !truthyStr t then buttonElement.innerHTML else t
      | none => buttonElement.innerHTML
    { buttonElement with
      innerHTML := buttonElement.readBack loadingMarkup, disabled := true,
      dataOriginalText := some text }
  else
    match buttonElement.dataOriginalText with
    | some original =>
      if truthyStr original then
        { buttonElement with
          innerHTML := buttonElement.readBack original, disabled := false,
          dataOriginalText := none }
      else { buttonElement with disabled := false }
    | none => { buttonElement with disabled := false }

/-- A sample button.  Its `readBack` gives a markup back as it was assigned,
which is what a button does with the markups assigned below (plain text,
`<b>Save</b>` and the loading markup): they are already in the form the
serialiser writes. -/
def plainButton (innerHTML : String) (disabled : Bool) (dataOriginalText : Option String) :
    Button :=
  ⟨innerHTML, disabled, dataOriginalText, fun s => s⟩

/-! ## `addKeyboardShortcuts` (lines 182-212) -/

/-- Substring test on character lists: the match of a CSS `*=` attribute
selector. -/
def hasSubstr (sub : List Char) : List Char → Bool
  | [] => sub.isEmpty
  | c :: cs => sub.isPrefixOf (c :: cs) || hasSubstr sub cs

/-- The `keydown` event: the `ctrlKey` flag and the `key` name. -/
structure KeyboardEvent where
  ctrlKey : Bool
  key : String
  deriving DecidableEq, Repr

/-- The markup written by the Escape shortcut. -/
def clearedMarkup : String := "<p class=\"text-muted\">Output cleared...</p>"

/-- An element of the page with an `id` attribute and its markup as
`innerHTML` reads it.  `clearedReadBack` is what `innerHTML` reads after the
assignment of `clearedMarkup`: the markup itself for an element whose content
is parsed as markup, the escaped text for a `textarea`.  The nodes are taken
not to nest, so that writing the markup of one leaves the markup of the others
as it is. -/
structure Node where
  id : String
  innerHTML : String
  clearedReadBack : String
  deriving DecidableEq, Repr

/-- What the keydown listener sees of the page: the `onclick` attributes of
its buttons and its elements with an id, both in tree order. -/
structure Page where
  buttons : List String
  nodes : List Node
  deriving DecidableEq, Repr

/-- What one keydown leaves behind: whether `preventDefault` was called, the
positions of the buttons it clicked, and the nodes afterwards. -/
structure KeydownResult where
  defaultPrevented : Bool
  clicked : List Nat
  nodes : List Node
  deriving DecidableEq, Repr

/-- The selector `[id*="Output"]`. -/
def matchesOutputId (n : Node) : Bool :=
  hasSubstr "Output".data n.id.data

/-- The body of the `forEach` callback of the Escape branch: the assignment
of `clearedMarkup` leaves `innerHTML` reading `clearedReadBack`. -/
def clearOutput (output : Node) : Node :=
  if truthyStr (jsTrim output.innerHTML) then
    { output with innerHTML := output.clearedReadBack }
  else output

/-- The Escape branch of the keydown listener (lines 203-210) over the nodes
of the page: nodes the selector does not match are skipped. -/
def escapeBranch (nodes : List Node) : List Node :=
  nodes.map (fun n => if matchesOutputId n then clearOutput n else n)

/-- The position of the first button whose `onclick` contains `needle`. -/
def firstButton (needle : String) (buttons : List String) : Option Nat :=
  let i := buttons.findIdx (fun b => hasSubstr needle.data b.data)
  if i < buttons.length then some i else none

/-- The keydown listener installed by `addKeyboardShortcuts`.  A click runs
the button's inline handler, which is page code outside this file: it is
recorded, not executed. -/
def keydownHandler (page : Page) (e : KeyboardEvent) : KeydownResult :=
  let r0 : KeydownResult := ⟨false, [], page.nodes⟩
  let r1 :=
    if e.ctrlKey && e.key == "s" then
      match firstButton "updateSettings" page.buttons with
      | some i => { r0 with defaultPrevented := true, clicked := r0.clicked ++ [i] }
      | none => { r0 with defaultPrevented := true }
    else r0
  let r2 :=
    if e.ctrlKey && e.key == "Enter" then
      match firstButton "generate" page.buttons with
      | some i => { r1 with defaultPrevented := true, clicked := r1.clicked ++ [i] }
      | none => { r1 with defaultPrevented := true }
    else r1
  if e.key == "Escape" then { r2 with nodes := escapeBranch r2.nodes } else r2

/-- A `div` with the id `reportOutput`: it reads the placeholder markup back
as assigned. -/
def divOutput (innerHTML : String) : Node :=
  ⟨"reportOutput", innerHTML, clearedMarkup⟩

/-- A `textarea` with the id `reportOutput`: assigned markup becomes its text,
and `innerHTML` reads the text back escaped. -/
def textareaOutput (innerHTML : String) : Node :=
  ⟨"reportOutput", innerHTML, "&lt;p class=\"text-muted\"&gt;Output cleared...&lt;/p&gt;"⟩

/-! ## `enableAutoSave` (lines 215-230) -/

/-- The `localStorage` object: its key/value pairs. -/
abbrev Storage := List (String × String)

/-- The method `localStorage.getItem(key)`: `none` for `null`. -/
def getItem (store : Storage) (key : String) : Option String :=
  (store.find? (fun kv => kv.1 == key)).map (fun kv => kv.2)

/-- The method `localStorage.setItem(key, value)`: overwrites the pair of an
existing key, appends a new one otherwise.  The storage quota is not
modelled: the call always succeeds. -/
def setItem : Storage → String → String → Storage
  | [], key, value => [(key, value)]
  | kv :: rest, key, value =>
    if kv.1 == key then (key, value) :: rest else kv :: setItem rest key value

/-- An `input` element matched by `#settingsForm input`: its `id` and its
`value`.  `assign s` is what the assignment `input.value = s` does: the value
the input holds afterwards (the value sanitisation of the input's type may
change `s`), or the exception it throws (`InvalidStateError` on a file
input). -/
structure SettingsInput where
  id : String
  value : String
  assign : String → Except JsError String

/-- The `change` listener installed by `enableAutoSave`. -/
def changeHandler (store : Storage) (el : SettingsInput) : Storage :=
  setItem store el.id el.value

/-- The part of the `forEach` callback of `enableAutoSave` that loads the
saved value: the input afterwards, or the exception of the assignment. -/
def loadSaved (store : Storage) (input : SettingsInput) : Except JsError SettingsInput :=
  match getItem store input.id with
  | some savedValue =>
    if truthyStr savedValue then
      match input.assign savedValue with
      | .ok held => .ok { input with value := held }
      | .error e => .error e
    else .ok input
  | none => .ok input

/-- The function `enableAutoSave()` over the inputs `#settingsForm input` in
tree order: the inputs afterwards, and the exception that ended the loop
early, if any. -/
def enableAutoSave (store : Storage) : List SettingsInput → List SettingsInput × Option JsError
  | [] => ([], none)
  | input :: rest =>
    match loadSaved store input with
    | .error e => (input :: rest, some e)
    | .ok loaded =>
      let r := enableAutoSave store rest
      (loaded :: r.1, r.2)

/-- The value sanitisation of a text input: line breaks are stripped. -/
def stripLineBreaks (s : String) : String :=
  ⟨s.data.filter (fun c => c != Char.ofNat 10 && c != Char.ofNat 13)⟩

/-- A text input: the assignment stores the string without its line breaks. -/
def textInput (id value : String) : SettingsInput :=
  ⟨id, value, fun s => .ok (stripLineBreaks s)⟩

/-- A file input: the assignment of the empty string clears the selection, the
assignment of any other string throws. -/
def fileInput (id value : String) : SettingsInput :=
  ⟨id, value, fun s =>
    if s == "" then .ok ""
    else .error ⟨"InvalidStateError",
      "This input element accepts a filename, which may only be programmatically set to " ++
        "the empty string."⟩⟩

/-! ## The API helpers `makeApiRequest` and `downloadFile` (lines 65-117) -/

/-- A JavaScript value obtained from JSON text.  Numbers are the integers of
magnitude below `2 ^ 53`, which the engine holds and prints exactly (any other
JSON number is outside the embedding); the fields of an object are its own
properties, with distinct keys. -/
inductive JsVal where
  | null
  | bool (b : Bool)
  | num (n : Int) (safe : n.natAbs < 2 ^ 53)
  | str (s : String)
  | arr (items : List JsVal)
  | obj (fields : List (String × JsVal))

/-- JavaScript truthiness (`ToBoolean`). -/
def JsVal.truthy : JsVal → Bool
  | .null => false
  | .bool b => b
  | .num n _ => n != 0
  | .str s => truthyStr s
  | .arr _ => true
  | .obj _ => true

/-- The `TypeError` of `ToPrimitive` on an object without a usable `toString`
or `valueOf`. -/
def notPrimitive : JsError := ⟨"TypeError", "Cannot convert object to primitive value"⟩

mutual
/-- The conversion `ToString`, as `new Error(value)` applies it to its
argument.  An object parsed from JSON prints through
`Object.prototype.toString`, unless it has an own `toString` property: that
one is not callable, `valueOf` gives the object back, and the conversion
throws.  An array prints through `join`. -/
def JsVal.toStr : JsVal → Except JsError String
  | .null => .ok "null"
  | .bool b => .ok (if b then "true" else "false")
  | .num n _ => .ok (toString n)
  | .str s => .ok s
  | .arr items => JsVal.joinItems items
  | .obj fields =>
    if (fields.map Prod.fst).contains "toString" then .error notPrimitive
    else .ok "[object Object]"
/-- The method `Array.prototype.join` with the separator `,`: a `null` item
is written as the empty string, any other item through `ToString`, from left
to right. -/
def JsVal.joinItems : List JsVal → Except JsError String
  | [] => .ok ""
  | [.null] => .ok ""
  | [x] => JsVal.toStr x
  | .null :: xs => (JsVal.joinItems xs).map (fun rest => "," ++ rest)
  | x :: xs =>
    match JsVal.toStr x with
    | .error e => .error e
    | .ok first => (JsVal.joinItems xs).map (fun rest => first ++ "," ++ rest)
end

/-- The property access `errorData.message`: `none` is `undefined`; on `null`
the access throws. -/
def getMessage : JsVal → Except JsError (Option JsVal)
  | .null => .error (nullAccess "message")
  | .obj fields => .ok (fields.lookup "message")
  | _ => .ok none

/-- The body of a response, as `response.blob()` delivers it. -/
structure Blob where
  bytes : List Nat
  deriving DecidableEq, Repr

/-- A `Response`: its status code, and what `response.json()` and
`response.blob()` settle to (`.error` is the rejection reason). -/
structure Response where
  status : Nat
  json : Except JsError JsVal
  blob : Except JsError Blob

/-- The getter `response.ok`: the status is in the range 200-299. -/
def Response.ok (r : Response) : Bool := 200 ≤ r.status && r.status ≤ 299

/-- The request handed to `fetch`; `body` stands for the JSON text
`JSON.stringify(data)` through the value it encodes. -/
structure Request where
  url : String
  method : String
  contentType : String
  body : JsVal

/-- The browser around the API helpers: what `fetch` settles to for a request
(`.error` is the rejection reason) and the URL `createObjectURL` hands out. -/
structure Browser where
  fetch : Request → Except JsError Response
  createObjectURL : Blob → String

/-- An effect of the success path of `downloadFile` on the page. -/
inductive Effect where
  | appendAnchor (href download : String)
  | clickAnchor
  | revokeObjectURL (url : String)
  | removeAnchor
  deriving DecidableEq, Repr

/-- How an `async` function ends: the `console.error` calls it made and the
value its promise resolves to (`.ok`) or the reason it rejects with
(`.error`); `effects` are the changes made to the page. -/
structure Outcome (α : Type) where
  console : List (String × JsError)
  effects : List Effect
  result : Except JsError α

/-- The `try` block of `makeApiRequest`. -/
def makeApiRequestTry (env : Browser) (url : String) (data : JsVal) (method : String) :
    Except JsError JsVal := do
  let response ← env.fetch ⟨url, method, "application/json", data⟩
  if !response.ok then
    throw (mkError ("HTTP error! status: " ++ toString response.status))
  response.json

/-- The function `makeApiRequest(url, data, method)`; `method` is `none` when
the argument is omitted, and then defaults to `POST`.  `data` is a JSON value,
on which `JSON.stringify` does not throw. -/
def makeApiRequest (env : Browser) (url : String) (data : JsVal) (method : Option String) :
    Outcome JsVal :=
  match makeApiRequestTry env url data (method.getD "POST") with
  | .ok v => ⟨[], [], .ok v⟩
  | .error error => ⟨[("API request failed:", error)], [], .error error⟩

/-- The `try` block of `downloadFile`: the effects of the success path. -/
def downloadFileTry (env : Browser) (url : String) (data : JsVal) (filename : String) :
    Except JsError (List Effect) := do
  let response ← env.fetch ⟨url, "POST", "application/json", data⟩
  if !response.ok then
    let errorData ← response.json
    let message ← getMessage errorData
    match message with
    | some m =>
      if m.truthy then
        let text ← m.toStr
        throw (mkError text)
      else throw (mkError "Download failed")
    | none => throw (mkError "Download failed")
  let blob ← response.blob
  let downloadUrl := env.createObjectURL blob
  pure [.appendAnchor downloadUrl filename, .clickAnchor, .revokeObjectURL downloadUrl,
    .removeAnchor]

/-- The function `downloadFile(url, data, filename)`. -/
def downloadFile (env : Browser) (url : String) (data : JsVal) (filename : String) :
    Outcome Bool :=
  match downloadFileTry env url data filename with
  | .ok effects => ⟨[], effects, .ok true⟩
  | .error error => ⟨[("Download failed:", error)], [], .error error⟩

/-- A browser whose `fetch` resolves every request to a response with the
given status whose body parses and reads as given. -/
def respondWith (status : Nat) (json : Except JsError JsVal) : Browser :=
  ⟨fun _ => .ok ⟨status, json, .ok ⟨[]⟩⟩, fun _ => "blob:0"⟩

/-- The rejection of `response.json()` on an empty body. -/
def emptyBodyError : JsError := ⟨"SyntaxError", "Unexpected end of JSON input"⟩

/-! ## Lemmas on class lists -/

theorem mem_classAdd (cls : List String) (tok t : String) :
    t ∈ classAdd cls tok ↔ t ∈ cls ∨ t = tok := by
  unfold classAdd
  split
  · constructor
    · intro h; exact Or.inl h
    · rintro (h | h)
      · exact h
      · subst h; assumption
  · simp

theorem mem_classRemove (cls : List String) (tok t : String) :
    t ∈ classRemove cls tok ↔ t ∈ cls ∧ t ≠ tok := by
  simp [classRemove]

theorem truthyStr_iff (s : String) : truthyStr s = true ↔ s ≠ "" := by
  simp [truthyStr]

theorem truthyStr_false_iff (s : String) : truthyStr s = false ↔ s = "" := by
  simp [truthyStr]

/-! ## Lemmas on `validateForm` -/

theorem validateInput_snd (b : Bool) (e : Element) :
    (validateInput b e).2 = (validateInput true e).2 := by
  unfold validateInput; split <;> rfl

theorem validateInput_fst (b : Bool) (e : Element) :
    (validateInput b e).1 = (b && truthyStr (jsTrim e.value)) := by
  unfold validateInput
  cases h : truthyStr (jsTrim e.value) <;> simp

theorem validateInputs_snd (b : Bool) (es : List Element) :
    (validateInputs b es).2 = es.map validatedElement := by
  induction es generalizing b with
  | nil => rfl
  | cons e es ih =>
    unfold validateInputs
    by_cases hm : matchesRequiredInputOrSelect e = true
    · simp [hm, ih, validatedElement, validateInput_snd b e]
    · simp [hm, ih, validatedElement]

theorem validateInputs_fst (b : Bool) (es : List Element) :
    (validateInputs b es).1 =
      (b && (es.filter matchesRequiredInputOrSelect).all
        (fun e => truthyStr (jsTrim e.value))) := by
  induction es generalizing b with
  | nil => simp [validateInputs]
  | cons e es ih =>
    unfold validateInputs
    by_cases hm : matchesRequiredInputOrSelect e = true
    · simp [hm, ih, validateInput_fst, Bool.and_assoc]
    · simp [hm, ih]

/-! ## C1: `validateForm` -/

/-- C1 as stated fails.  A form whose required, empty input has the id
`querySelectorAll` exposes that input as `form.querySelectorAll`; the call in
line 38 throws a `TypeError`, so `validateForm` returns neither `false` nor
`true`, and the empty required input is left without `is-invalid`. -/
theorem validateForm_required_fields_fails :
    validateForm (some (shadowingForm "querySelectorAll" [])) =
        (some (shadowingForm "querySelectorAll" []),
          .error (notAFunction "form.querySelectorAll")) ∧
      (∃ e ∈ (shadowingForm "querySelectorAll" []).descendants,
        matchesRequiredInputOrSelect e = true ∧ jsTrim e.value = "" ∧
          "is-invalid" ∉ e.classList) := by
  refine ⟨rfl, ⟨"input", "querySelectorAll", true, "", "", []⟩, by decide, by decide, by decide,
    by decide⟩

/-- C1, amended. For an element found by its id whose `querySelectorAll` is
not shadowed by one of its controls, `validateForm` returns normally; a
required input or select whose trimmed value is empty makes the result `false`
and carries `is-invalid` afterwards; when every required input or select has a
non-empty trimmed value the result is `true` and none of them carries
`is-invalid` afterwards; the result is the conjunction, over the required
inputs and selects, of "the trimmed value is non-empty".  The loop changes
nothing but class lists. -/
theorem validateForm_required_fields (form : Target)
    (hshadow : shadowed form "querySelectorAll" = false) :
    ∃ isValid form',
      validateForm (some form) = (some form', .ok isValid) ∧
      form'.isForm = form.isForm ∧ form'.named = form.named ∧
      form'.descendants.length = form.descendants.length ∧
      isValid = (form.descendants.filter matchesRequiredInputOrSelect).all
        (fun e => truthyStr (jsTrim e.value)) ∧
      (∀ (i : Nat) (e : Element), form.descendants[i]? = some e →
        ∃ e', form'.descendants[i]? = some e' ∧ e' = { e with classList := e'.classList } ∧
          (matchesRequiredInputOrSelect e = true → jsTrim e.value = "" →
            isValid = false ∧ "is-invalid" ∈ e'.classList)) ∧
      ((∀ e ∈ form.descendants, matchesRequiredInputOrSelect e = true → jsTrim e.value ≠ "") →
        isValid = true ∧
        ∀ (i : Nat) (e' : Element), form'.descendants[i]? = some e' →
          matchesRequiredInputOrSelect e' = true →
          "is-invalid" ∉ e'.classList) := by
  refine ⟨(validateInputs true form.descendants).1,
    ⟨form.isForm, form.named, (validateInputs true form.descendants).2⟩,
    ?_, rfl, rfl, ?_, ?_, ?_, ?_⟩
  · simp [validateForm, hshadow]
  · simp [validateInputs_snd]
  · simp [validateInputs_fst]
  · intro i e hi
    refine ⟨validatedElement e, ?_, ?_, ?_⟩
    · simp [validateInputs_snd, hi]
    · unfold validatedElement validateInput
      split <;> [split; skip] <;> rfl
    · intro hm hempty
      constructor
      · rw [validateInputs_fst]
        simp only [Bool.true_and, List.all_eq_false]
        refine ⟨e, ?_, ?_⟩
        · exact List.mem_filter.mpr ⟨List.getElem?_mem hi, hm⟩
        · simp [hempty, truthyStr]
      · simp [validatedElement, hm, validateInput, hempty, truthyStr, mem_classAdd]
  · intro hall
    constructor
    · rw [validateInputs_fst]
      simp only [Bool.true_and, List.all_eq_true]
      intro e he
      have := List.mem_filter.mp he
      exact (truthyStr_iff _).mpr (hall e this.1 this.2)
    · intro i e' hi hm
      simp only [validateInputs_snd, List.getElem?_map, Option.map_eq_some'] at hi
      obtain ⟨e, hie, rfl⟩ := hi
      have hmem := List.getElem?_mem hie
      have hme : matchesRequiredInputOrSelect e = true := by
        unfold validatedElement validateInput at hm
        by_cases h : matchesRequiredInputOrSelect e = true
        · exact h
        · simp [h] at hm
      have hne := (truthyStr_iff _).mpr (hall e hmem hme)
      simp [validatedElement, hme, validateInput, hne, mem_classRemove]

/-- C1 amended, at a form with one empty required input, one filled required
select and one empty optional input. -/
theorem validateForm_required_fields_witness :
    ∃ isValid form',
      validateForm (some sampleForm) = (some form', .ok isValid) ∧
      form'.descendants.length = 3 ∧ isValid = false :=
  let ⟨b, f, h1, _, _, h3, h4, _⟩ := validateForm_required_fields sampleForm (by decide)
  ⟨b, f, h1, h3.trans (by decide), h4.trans (by decide)⟩

/-! ## C7: `resetForm` -/

theorem not_mem_removeValidityClasses (e : Element) :
    "is-valid" ∉ (removeValidityClasses e).classList ∧
      "is-invalid" ∉ (removeValidityClasses e).classList := by
  simp [removeValidityClasses, mem_classRemove]

/-- C7 as stated fails.  A form whose input has the id `reset` exposes that
input as `form.reset`; the call in line 55 throws a `TypeError` before any
class is removed, and the input still carries `is-invalid`. -/
theorem resetForm_clears_validity_fails :
    resetForm (some (shadowingForm "reset" ["is-invalid"])) =
        (some (shadowingForm "reset" ["is-invalid"]), .error (notAFunction "form.reset")) ∧
      (∃ e ∈ (shadowingForm "reset" ["is-invalid"]).descendants,
        "is-invalid" ∈ e.classList) := by
  refine ⟨rfl, ⟨"input", "reset", true, "", "", ["is-invalid"]⟩, by decide, by decide⟩

/-- C7, amended. For a form found by its id, none of whose controls shadows
`reset` or `querySelectorAll`, and any class lists of its descendants,
`resetForm` returns normally and afterwards no descendant of the form carries
`is-valid` or `is-invalid`. -/
theorem resetForm_clears_validity (form : Target) (hform : form.isForm = true)
    (hreset : shadowed form "reset" = false)
    (hquery : shadowed form "querySelectorAll" = false) :
    ∃ form',
      resetForm (some form) = (some form', .ok ()) ∧
      form'.descendants.length = form.descendants.length ∧
      ∀ e' ∈ form'.descendants, "is-valid" ∉ e'.classList ∧ "is-invalid" ∉ e'.classList := by
  refine ⟨⟨form.isForm, form.named, clearValidity (form.descendants.map resetControl)⟩,
    ?_, ?_, ?_⟩
  · have hq : shadowed ⟨true, form.named, form.descendants.map resetControl⟩
        "querySelectorAll" = false := by
      simpa [shadowed, hform] using hquery
    simp [resetForm, hform, hreset, hq]
  · simp [clearValidity]
  · intro e' he'
    simp only [clearValidity, List.mem_map] at he'
    obtain ⟨e, -, rfl⟩ := he'
    by_cases hm : matchesValidityClass e = true
    · simpa [hm] using not_mem_removeValidityClasses e
    · have hm' := hm
      simp [matchesValidityClass] at hm'
      simp only [hm, Bool.false_eq_true, if_false]
      exact ⟨hm'.2, hm'.1⟩

/-- C7 amended, at a form whose fields carry `is-invalid` and `is-valid`. -/
theorem resetForm_clears_validity_witness :
    ∃ form',
      resetForm (some sampleForm) = (some form', .ok ()) ∧
      form'.descendants.length = 3 ∧
      ∀ e' ∈ form'.descendants, "is-valid" ∉ e'.classList ∧ "is-invalid" ∉ e'.classList :=
  let ⟨f, h1, h2, h3⟩ :=
    resetForm_clears_validity sampleForm (by decide) (by decide) (by decide)
  ⟨f, h1, h2.trans (by decide), h3⟩

/-! ## C8: `highlightActiveNavItem` -/

theorem highlightLink_active_iff (p : String) (link : NavLink) :
    "active" ∈ (highlightLink p link).classList ↔ link.href = some p := by
  unfold highlightLink
  by_cases h : link.href = some p
  · simp [h, mem_classAdd]
  · simp [h, mem_classRemove]

theorem highlightLink_other (p : String) (link : NavLink) (t : String) (ht : t ≠ "active") :
    t ∈ (highlightLink p link).classList ↔ t ∈ link.classList := by
  unfold highlightLink
  by_cases h : link.href = some p
  · simp [h, mem_classAdd, mem_classRemove, ht]
  · simp [h, mem_classRemove, ht]

theorem highlightLink_href (p : String) (link : NavLink) :
    (highlightLink p link).href = link.href := by
  simp only [highlightLink]
  split <;> rfl

/-- C8. After `highlightActiveNavItem`, the link at each position keeps its
`href` and its other classes, and carries `active` if and only if its `href`
attribute equals the current path; with the links `/`, `/reports`, `/settings`
and the path `/reports`, exactly the `/reports` link is active, whatever
carried `active` before. -/
theorem highlightActiveNavItem_active_iff (currentPath : String) (navLinks : List NavLink) :
    (highlightActiveNavItem currentPath navLinks).length = navLinks.length ∧
    (∀ (i : Nat) (link : NavLink), navLinks[i]? = some link →
      ∃ link', (highlightActiveNavItem currentPath navLinks)[i]? = some link' ∧
        link'.href = link.href ∧
        ("active" ∈ link'.classList ↔ link.href = some currentPath) ∧
        ∀ t, t ≠ "active" → (t ∈ link'.classList ↔ t ∈ link.classList)) ∧
    highlightActiveNavItem "/reports"
        [⟨some "/", ["nav-link", "active"]⟩, ⟨some "/reports", ["nav-link"]⟩,
          ⟨some "/settings", ["nav-link"]⟩] =
      [⟨some "/", ["nav-link"]⟩, ⟨some "/reports", ["nav-link", "active"]⟩,
        ⟨some "/settings", ["nav-link"]⟩] := by
  refine ⟨by simp [highlightActiveNavItem], ?_, by decide⟩
  intro i link hi
  refine ⟨highlightLink currentPath link, by simp [highlightActiveNavItem, hi],
    highlightLink_href _ _, highlightLink_active_iff _ _, ?_⟩
  intro t ht
  exact highlightLink_other _ _ t ht

/-- C8, at a link whose `href` has the current path as a proper prefix: it
loses `active`. -/
theorem highlightActiveNavItem_active_iff_witness :
    ∃ link', (highlightActiveNavItem "/reports" [⟨some "/reports/2024", ["active"]⟩])[0]? =
        some link' ∧ "active" ∉ link'.classList :=
  let ⟨l, h1, _, h3, _⟩ :=
    (highlightActiveNavItem_active_iff "/reports" [⟨some "/reports/2024", ["active"]⟩]).2.1
      0 ⟨some "/reports/2024", ["active"]⟩ rfl
  ⟨l, h1, fun h => absurd (h3.mp h) (by decide)⟩

/-! ## C10: the `input` listener -/

/-- C10. The `input` listener never adds `is-invalid`; it changes the class
list only when the field carries `is-invalid` and its trimmed value is
non-empty, and then the field carries `is-valid` and not `is-invalid`
afterwards; a field that carries `is-valid` and whose value is edited to one
that is empty after trimming keeps `is-valid` when the listener runs.  The
listener writes nothing but the class list. -/
theorem inputHandler_one_directional (el : Element) :
    ("is-invalid" ∈ (inputHandler el).classList → "is-invalid" ∈ el.classList) ∧
    ((inputHandler el).classList ≠ el.classList →
      "is-invalid" ∈ el.classList ∧ jsTrim el.value ≠ "") ∧
    ("is-invalid" ∈ el.classList → jsTrim el.value ≠ "" →
      (inputHandler el).classList ≠ el.classList ∧
      "is-valid" ∈ (inputHandler el).classList ∧
      "is-invalid" ∉ (inputHandler el).classList) ∧
    (∀ v, "is-valid" ∈ el.classList → jsTrim v = "" →
      "is-valid" ∈ (fireOn .input (fireOn (.edit v) el)).classList) ∧
    inputHandler el = { el with classList := (inputHandler el).classList } := by
  have key : ∀ x : Element, ("is-invalid" ∈ x.classList ∧ jsTrim x.value ≠ "") ∨
      inputHandler x = x := by
    intro x
    by_cases h : "is-invalid" ∈ x.classList ∧ jsTrim x.value ≠ ""
    · exact Or.inl h
    · right
      unfold inputHandler
      rw [if_neg]
      simpa [truthyStr_iff] using h
  have hfix : ∀ x : Element, "is-invalid" ∈ x.classList → jsTrim x.value ≠ "" →
      (inputHandler x).classList = classAdd (classRemove x.classList "is-invalid") "is-valid" := by
    intro x h1 h2
    simp [inputHandler, h1, (truthyStr_iff _).mpr h2]
  refine ⟨?_, ?_, ?_, ?_, ?_⟩
  · intro h
    rcases key el with hk | hk
    · exact hk.1
    · rwa [hk] at h
  · intro h
    rcases key el with hk | hk
    · exact hk
    · exact absurd (by rw [hk]) h
  · intro h1 h2
    have hcl := hfix el h1 h2
    have hni : "is-invalid" ∉ (inputHandler el).classList := by
      simp [hcl, mem_classAdd, mem_classRemove]
    refine ⟨?_, ?_, hni⟩
    · intro heq
      exact hni (heq ▸ h1)
    · simp [hcl, mem_classAdd]
  · intro v hv hempty
    have hid : inputHandler { el with value := v } = { el with value := v } := by
      rcases key { el with value := v } with hk | hk
      · exact absurd hempty hk.2
      · exact hk
    simp only [fireOn]
    split
    · rw [hid]; exact hv
    · exact hv
  · unfold inputHandler
    split <;> rfl

/-- C10, at an invalid field whose value has become non-empty. -/
theorem inputHandler_one_directional_witness :
    (inputHandler ⟨"input", "a", true, "x", "", ["form-control", "is-invalid"]⟩).classList ≠
        ["form-control", "is-invalid"] ∧
      "is-valid" ∈
        (inputHandler ⟨"input", "a", true, "x", "", ["form-control", "is-invalid"]⟩).classList ∧
      "is-invalid" ∉
        (inputHandler ⟨"input", "a", true, "x", "", ["form-control", "is-invalid"]⟩).classList :=
  (inputHandler_one_directional
    ⟨"input", "a", true, "x", "", ["form-control", "is-invalid"]⟩).2.2.1 (by decide) (by decide)

/-! ## C9: the Escape shortcut -/

theorem clearOutput_of_nonempty (n : Node) (h : jsTrim n.innerHTML ≠ "") :
    clearOutput n = { n with innerHTML := n.clearedReadBack } := by
  simp [clearOutput, (truthyStr_iff _).mpr h]

theorem clearOutput_of_empty (n : Node) (h : jsTrim n.innerHTML = "") : clearOutput n = n := by
  simp [clearOutput, h, truthyStr]

theorem clearOutput_idem (n : Node) : clearOutput (clearOutput n) = clearOutput n := by
  by_cases h : jsTrim n.innerHTML = ""
  · rw [clearOutput_of_empty n h, clearOutput_of_empty n h]
  · rw [clearOutput_of_nonempty n h]
    unfold clearOutput
    split <;> rfl

theorem matchesOutputId_clearOutput (n : Node) :
    matchesOutputId (clearOutput n) = matchesOutputId n := by
  unfold clearOutput
  split <;> rfl

theorem escapeBranch_idem (nodes : List Node) :
    escapeBranch (escapeBranch nodes) = escapeBranch nodes := by
  simp only [escapeBranch, List.map_map]
  apply List.map_congr_left
  intro n _
  by_cases hm : matchesOutputId n = true
  · simp [hm, matchesOutputId_clearOutput, clearOutput_idem]
  · simp [hm]

theorem keydownHandler_escape (page : Page) (ctrlKey : Bool) :
    (keydownHandler page ⟨ctrlKey, "Escape"⟩).nodes = escapeBranch page.nodes := by
  cases ctrlKey <;> simp [keydownHandler]

/-- C9 as stated fails.  After Escape a filled `div` Output element reads the
markup of a muted paragraph, not the bare text "Output cleared..."; and a
filled `textarea` Output element reads neither: the assigned markup has become
its text, which `innerHTML` reads back escaped. -/
theorem escape_clears_outputs_fails :
    (keydownHandler ⟨[], [divOutput "<pre>Term 1</pre>"]⟩ ⟨false, "Escape"⟩).nodes =
        [divOutput "<p class=\"text-muted\">Output cleared...</p>"] ∧
      "<p class=\"text-muted\">Output cleared...</p>" ≠ "Output cleared..." ∧
      (keydownHandler ⟨[], [textareaOutput "Term 1"]⟩ ⟨false, "Escape"⟩).nodes =
        [textareaOutput "&lt;p class=\"text-muted\"&gt;Output cleared...&lt;/p&gt;"] ∧
      "&lt;p class=\"text-muted\"&gt;Output cleared...&lt;/p&gt;" ≠ clearedMarkup ∧
      "&lt;p class=\"text-muted\"&gt;Output cleared...&lt;/p&gt;" ≠ "Output cleared..." := by
  decide

/-- C9, amended. On a keydown of Escape the listener runs the Escape branch
on the nodes of the page.  An Output element whose markup is non-empty after
trimming is assigned the placeholder markup, the muted paragraph
"Output cleared...", and has exactly that markup afterwards when it reads the
assignment back unchanged; one whose markup is empty after trimming is left as
it is, by the first and by the second Escape; and a second Escape leaves every
node as the first one left it. -/
theorem escape_clears_outputs (page : Page) (ctrlKey : Bool) (i : Nat) (n : Node)
    (hn : page.nodes[i]? = some n) (hid : matchesOutputId n = true) :
    let once := keydownHandler page ⟨ctrlKey, "Escape"⟩
    let twice := keydownHandler { page with nodes := once.nodes } ⟨ctrlKey, "Escape"⟩
    clearedMarkup = "<p class=\"text-muted\">" ++ "Output cleared..." ++ "</p>" ∧
    (jsTrim n.innerHTML ≠ "" →
      once.nodes[i]? = some { n with innerHTML := n.clearedReadBack } ∧
      twice.nodes[i]? = some { n with innerHTML := n.clearedReadBack }) ∧
    (jsTrim n.innerHTML ≠ "" → n.clearedReadBack = clearedMarkup →
      once.nodes[i]? = some { n with innerHTML := clearedMarkup } ∧
      twice.nodes[i]? = some { n with innerHTML := clearedMarkup }) ∧
    (jsTrim n.innerHTML = "" → once.nodes[i]? = some n ∧ twice.nodes[i]? = some n) ∧
    twice.nodes = once.nodes := by
  intro once twice
  have h1 : once.nodes = escapeBranch page.nodes := keydownHandler_escape page ctrlKey
  have h2 : twice.nodes = escapeBranch page.nodes := by
    show (keydownHandler { page with nodes := once.nodes } ⟨ctrlKey, "Escape"⟩).nodes = _
    rw [keydownHandler_escape, h1]
    exact escapeBranch_idem _
  have hi : (escapeBranch page.nodes)[i]? = some (clearOutput n) := by
    simp [escapeBranch, hn, hid]
  have hne : jsTrim n.innerHTML ≠ "" →
      once.nodes[i]? = some { n with innerHTML := n.clearedReadBack } ∧
      twice.nodes[i]? = some { n with innerHTML := n.clearedReadBack } := by
    intro hne
    rw [h1, h2, hi, clearOutput_of_nonempty n hne]
    exact ⟨rfl, rfl⟩
  refine ⟨by decide, hne, ?_, ?_, by rw [h1, h2]⟩
  · intro hne' hrb
    rw [← hrb]
    exact hne hne'
  · intro he
    rw [h1, h2, hi, clearOutput_of_empty n he]
    exact ⟨rfl, rfl⟩

/-- C9 amended, at a page with a filled `div` Output element. -/
theorem escape_clears_outputs_witness :
    (keydownHandler ⟨[], [divOutput "<pre>Term 1</pre>"]⟩ ⟨false, "Escape"⟩).nodes[0]? =
      some (divOutput "<p class=\"text-muted\">Output cleared...</p>") :=
  ((escape_clears_outputs ⟨[], [divOutput "<pre>Term 1</pre>"]⟩ false 0
    (divOutput "<pre>Term 1</pre>") rfl (by decide)).2.2.1 (by decide) rfl).1

/-! ## C2: `setButtonLoading` -/

/-- C2 as stated fails.  A button with empty markup keeps the loading markup
after on-then-off, because the saved empty string is falsy when it is read
back; and a button that was disabled before is enabled afterwards. -/
theorem setButtonLoading_round_trip_fails :
    (setButtonLoading (setButtonLoading (plainButton "" false none) true none) false
        none).innerHTML = loadingMarkup ∧
      (setButtonLoading (setButtonLoading (plainButton "" false none) true none) false
        none).innerHTML ≠ (plainButton "" false none).innerHTML ∧
      (setButtonLoading (setButtonLoading (plainButton "Save" true none) true none) false
        none).disabled ≠ (plainButton "Save" true none).disabled := by
  decide

/-- C2, amended. For every button whose markup is non-empty and reads back
unchanged when it is assigned to `innerHTML`, whatever its `disabled` flag and
its `data-original-text` attribute, and with no override argument, loading on
followed by loading off leaves the button with exactly the markup it had,
enabled, and without the `data-original-text` attribute. -/
theorem setButtonLoading_round_trip (btn : Button) (h : btn.innerHTML ≠ "")
    (hfix : btn.readBack btn.innerHTML = btn.innerHTML) :
    setButtonLoading (setButtonLoading btn true none) false none =
      { btn with disabled := false, dataOriginalText := none } := by
  simp [setButtonLoading, (truthyStr_iff _).mpr h, hfix]

/-- C2 amended, at a disabled button. -/
theorem setButtonLoading_round_trip_witness :
    (setButtonLoading (setButtonLoading (plainButton "<b>Save</b>" true (some "old")) true none)
        false none).innerHTML = "<b>Save</b>" ∧
      (setButtonLoading (setButtonLoading (plainButton "<b>Save</b>" true (some "old")) true none)
        false none).disabled = false :=
  have h := setButtonLoading_round_trip (plainButton "<b>Save</b>" true (some "old"))
    (by decide) rfl
  ⟨by rw [h]; rfl, by rw [h]⟩

/-! ## C5: `enableAutoSave` -/

theorem getItem_setItem (store : Storage) (key value : String) :
    getItem (setItem store key value) key = some value := by
  induction store with
  | nil => simp [setItem, getItem]
  | cons kv rest ih =>
    unfold setItem
    by_cases hk : kv.1 = key
    · simp [hk, getItem]
    · simp only [getItem] at ih
      simp [hk, getItem, List.find?_cons, ih]

theorem enableAutoSave_getElem (store : Storage) (inputs : List SettingsInput) (j : Nat)
    (input loaded : SettingsInput) (hj : inputs[j]? = some input)
    (hload : loadSaved store input = .ok loaded)
    (hbefore : (enableAutoSave store (inputs.take j)).2 = none) :
    (enableAutoSave store inputs).1[j]? = some loaded := by
  induction inputs generalizing j with
  | nil => simp at hj
  | cons x xs ih =>
    cases j with
    | zero =>
      simp only [List.getElem?_cons_zero, Option.some.injEq] at hj
      subst hj
      simp [enableAutoSave, hload]
    | succ k =>
      simp only [List.getElem?_cons_succ] at hj
      simp only [List.take_succ_cons, enableAutoSave] at hbefore
      cases hx : loadSaved store x with
      | error e => simp [hx] at hbefore
      | ok x' =>
        simp only [hx] at hbefore
        simp only [enableAutoSave, hx, List.getElem?_cons_succ]
        exact ih k hj hbefore

/-- C5 as stated fails.  The user clears a settings text input whose markup
default is "Demo School"; the change listener stores the empty string under
the input's id; after a reload `enableAutoSave` finds the stored empty string
falsy and leaves the input at its default.  And the change listener of a file
input stores the file's fake path; after a reload the assignment of that
stored value throws, and the input stays empty. -/
theorem autoSave_round_trip_fails :
    getItem (changeHandler [] (textInput "schoolName" "")) "schoolName" = some "" ∧
      (enableAutoSave (changeHandler [] (textInput "schoolName" ""))
          [textInput "schoolName" "Demo School"]).1.map (fun x => x.value) =
        ["Demo School"] ∧
      getItem (changeHandler [] (fileInput "logo" "C:\\fakepath\\logo.png")) "logo" =
        some "C:\\fakepath\\logo.png" ∧
      (enableAutoSave (changeHandler [] (fileInput "logo" "C:\\fakepath\\logo.png"))
          [fileInput "logo" ""]).1.map (fun x => x.value) = [""] ∧
      ((enableAutoSave (changeHandler [] (fileInput "logo" "C:\\fakepath\\logo.png"))
          [fileInput "logo" ""]).2.map (fun e => e.name)) = some "InvalidStateError" := by
  decide

/-- C5, amended. The change listener leaves the store mapping the input's id
to the input's value, for every value.  On a page whose store holds a
non-empty value for the id of a settings-form input, `enableAutoSave` sets
that input's value to the stored value, provided that the input holds that
value as it is assigned and that no assignment to an earlier input has thrown;
so a non-empty value saved by the change listener is the value of such an
input with that id after a reload. -/
theorem autoSave_round_trip (store : Storage) (el : SettingsInput) :
    getItem (changeHandler store el) el.id = some el.value ∧
    (∀ (store' : Storage) (inputs : List SettingsInput) (j : Nat) (input : SettingsInput)
        (v : String),
      inputs[j]? = some input → getItem store' input.id = some v → v ≠ "" →
      input.assign v = .ok v → (enableAutoSave store' (inputs.take j)).2 = none →
      (enableAutoSave store' inputs).1[j]? = some { input with value := v }) ∧
    (∀ (inputs : List SettingsInput) (j : Nat) (input : SettingsInput),
      inputs[j]? = some input → input.id = el.id → el.value ≠ "" →
      input.assign el.value = .ok el.value →
      (enableAutoSave (changeHandler store el) (inputs.take j)).2 = none →
      (enableAutoSave (changeHandler store el) inputs).1[j]? =
        some { input with value := el.value }) := by
  have h1 : getItem (changeHandler store el) el.id = some el.value :=
    getItem_setItem store el.id el.value
  have h2 : ∀ (store' : Storage) (inputs : List SettingsInput) (j : Nat)
      (input : SettingsInput) (v : String),
      inputs[j]? = some input → getItem store' input.id = some v → v ≠ "" →
      input.assign v = .ok v → (enableAutoSave store' (inputs.take j)).2 = none →
      (enableAutoSave store' inputs).1[j]? = some { input with value := v } := by
    intro store' inputs j input v hj hg hv ha hb
    apply enableAutoSave_getElem store' inputs j input _ hj _ hb
    simp [loadSaved, hg, (truthyStr_iff _).mpr hv, ha]
  refine ⟨h1, h2, ?_⟩
  intro inputs j input hj hid hv ha hb
  exact h2 _ inputs j input el.value hj (hid ▸ h1) hv ha hb

/-- C5 amended, at a settings text input changed to "Lilongwe" and a reloaded
page that shows its markup default. -/
theorem autoSave_round_trip_witness :
    ((enableAutoSave (changeHandler [("schoolName", "old")] (textInput "schoolName" "Lilongwe"))
        [textInput "schoolName" "Demo"]).1[0]?).map (fun x => x.value) = some "Lilongwe" :=
  congrArg (Option.map (fun x => x.value))
    ((autoSave_round_trip [("schoolName", "old")] (textInput "schoolName" "Lilongwe")).2.2
      [textInput "schoolName" "Demo"] 0 (textInput "schoolName" "Demo") rfl rfl (by decide)
      (congrArg Except.ok (by decide)) rfl)

/-! ## C6: `makeApiRequest` -/

theorem Response.ok_false_iff (r : Response) :
    r.ok = false ↔ r.status < 200 ∨ 299 < r.status := by
  simp only [Response.ok, Bool.and_eq_false_iff, decide_eq_false_iff_not, not_le]

/-- C6. Whatever `fetch` settles to for the request: when it resolves to a
response that is not ok, with status code `c`, `makeApiRequest` rejects with
an `Error` whose message is `HTTP error! status: ` followed by `c` in decimal;
when it resolves to an ok response whose body parses to the JSON value `j`,
`makeApiRequest` resolves to `j`; when `fetch` rejects with `e`, or the body
of an ok response fails to parse with `e`, `makeApiRequest` rejects with the
same `e`, after logging it.  A response is ok exactly when its status is in
200-299. -/
theorem makeApiRequest_result (env : Browser) (url : String) (data : JsVal)
    (method : Option String) :
    let out := makeApiRequest env url data method
    let settled := env.fetch ⟨url, method.getD "POST", "application/json", data⟩
    (∀ resp, settled = .ok resp → resp.ok = false →
      (resp.status < 200 ∨ 299 < resp.status) ∧
      out.result = .error (mkError ("HTTP error! status: " ++ toString resp.status))) ∧
    (∀ resp j, settled = .ok resp → resp.ok = true → resp.json = .ok j →
      out.result = .ok j ∧ out.console = []) ∧
    (∀ e, settled = .error e →
      out.result = .error e ∧ out.console = [("API request failed:", e)]) ∧
    (∀ resp e, settled = .ok resp → resp.ok = true → resp.json = .error e →
      out.result = .error e ∧ out.console = [("API request failed:", e)]) := by
  intro out settled
  refine ⟨?_, ?_, ?_, ?_⟩
  · intro resp hs hok
    refine ⟨(Response.ok_false_iff resp).mp hok, ?_⟩
    have : makeApiRequestTry env url data (method.getD "POST") =
        .error (mkError ("HTTP error! status: " ++ toString resp.status)) := by
      show (env.fetch ⟨url, method.getD "POST", "application/json", data⟩ >>= _) = _
      rw [show env.fetch ⟨url, method.getD "POST", "application/json", data⟩ = .ok resp from hs]
      simp [hok, bind, Except.bind, throw, throwThe, MonadExceptOf.throw]
    show (makeApiRequest env url data method).result = _
    simp [makeApiRequest, this]
  · intro resp j hs hok hj
    have : makeApiRequestTry env url data (method.getD "POST") = .ok j := by
      show (env.fetch ⟨url, method.getD "POST", "application/json", data⟩ >>= _) = _
      rw [show env.fetch ⟨url, method.getD "POST", "application/json", data⟩ = .ok resp from hs]
      simp [hok, hj, bind, Except.bind, pure, Except.pure]
    show (makeApiRequest env url data method).result = _ ∧
      (makeApiRequest env url data method).console = _
    simp [makeApiRequest, this]
  · intro e hs
    have : makeApiRequestTry env url data (method.getD "POST") = .error e := by
      show (env.fetch ⟨url, method.getD "POST", "application/json", data⟩ >>= _) = _
      rw [show env.fetch ⟨url, method.getD "POST", "application/json", data⟩ = .error e from hs]
      rfl
    show (makeApiRequest env url data method).result = _ ∧
      (makeApiRequest env url data method).console = _
    simp [makeApiRequest, this]
  · intro resp e hs hok hj
    have : makeApiRequestTry env url data (method.getD "POST") = .error e := by
      show (env.fetch ⟨url, method.getD "POST", "application/json", data⟩ >>= _) = _
      rw [show env.fetch ⟨url, method.getD "POST", "application/json", data⟩ = .ok resp from hs]
      simp [hok, hj, bind, Except.bind, pure, Except.pure]
    show (makeApiRequest env url data method).result = _ ∧
      (makeApiRequest env url data method).console = _
    simp [makeApiRequest, this]

/-- C6, at an endpoint that answers 200 with the body `{"ok": true}`. -/
theorem makeApiRequest_result_witness :
    (makeApiRequest (respondWith 200 (.ok (.obj [("ok", .bool true)]))) "/api" (.obj [])
        (some "POST")).result = .ok (.obj [("ok", .bool true)]) :=
  ((makeApiRequest_result (respondWith 200 (.ok (.obj [("ok", .bool true)]))) "/api" (.obj [])
    (some "POST")).2.1 ⟨200, .ok (.obj [("ok", .bool true)]), .ok ⟨[]⟩⟩
    (.obj [("ok", .bool true)]) rfl (by decide) rfl).1

/-! ## C3: `downloadFile` -/

theorem downloadFileTry_of_not_ok (env : Browser) (url : String) (data : JsVal)
    (filename : String) (resp : Response)
    (hfetch : env.fetch ⟨url, "POST", "application/json", data⟩ = .ok resp)
    (hok : resp.ok = false) :
    downloadFileTry env url data filename =
      match resp.json with
      | .error e => .error e
      | .ok errorData =>
        match getMessage errorData with
        | .error e => .error e
        | .ok (some m) =>
          if m.truthy then
            match m.toStr with
            | .error e => .error e
            | .ok text => .error (mkError text)
          else .error (mkError "Download failed")
        | .ok none => .error (mkError "Download failed") := by
  show (env.fetch ⟨url, "POST", "application/json", data⟩ >>= _) = _
  rw [hfetch]
  simp only [bind, Except.bind, hok]
  cases hj : resp.json with
  | error e => rfl
  | ok errorData =>
    cases hm : getMessage errorData with
    | error e => simp [hm]
    | ok msg =>
      cases msg with
      | none => simp [hm, throw, throwThe, MonadExceptOf.throw]
      | some m =>
        cases ht : m.truthy
        · simp [hm, ht, throw, throwThe, MonadExceptOf.throw]
        · cases hs : m.toStr <;> simp [hm, ht, hs, throw, throwThe, MonadExceptOf.throw]

/-- C3 as stated fails.  On a 500 response whose body does not parse,
`downloadFile` rejects with the parse failure itself, whose message is not
"Download failed"; and on a 500 response whose body has the `message` field
`""`, it rejects with "Download failed", not with the field. -/
theorem downloadFile_non2xx_fails :
    (downloadFile (respondWith 500 (.error emptyBodyError)) "/download" (.obj [])
        "f.txt").result = .error emptyBodyError ∧
      emptyBodyError.message ≠ "Download failed" ∧
      (downloadFile (respondWith 500 (.ok (.obj [("message", .str "")]))) "/download" (.obj [])
        "f.txt").result = .error (mkError "Download failed") ∧
      (mkError "Download failed").message ≠ "" := by
  refine ⟨rfl, by decide, rfl, by decide⟩

/-- C3, amended. On a response that is not ok: when the body parses to an
object whose `message` field is a non-empty string `m`, `downloadFile` rejects
with an `Error` whose message is `m` (a truthy field that is not a string is
converted to a string first, and a failure of that conversion is what
`downloadFile` rejects with); when the body parses to an object without a
`message` field, or with a falsy one, it rejects with an `Error` whose message
is exactly "Download failed"; when the body does not parse, it rejects with
the parse failure, unchanged; in every case it rejects, runs none of the
download effects, and does not return `true`. -/
theorem downloadFile_non2xx (env : Browser) (url : String) (data : JsVal) (filename : String)
    (resp : Response) (hfetch : env.fetch ⟨url, "POST", "application/json", data⟩ = .ok resp)
    (hok : resp.ok = false) :
    let out := downloadFile env url data filename
    (∀ fields m, resp.json = .ok (.obj fields) → fields.lookup "message" = some (.str m) →
      m ≠ "" → out.result = .error (mkError m)) ∧
    (∀ fields m text, resp.json = .ok (.obj fields) → fields.lookup "message" = some m →
      m.truthy = true → m.toStr = .ok text → out.result = .error (mkError text)) ∧
    (∀ fields m e, resp.json = .ok (.obj fields) → fields.lookup "message" = some m →
      m.truthy = true → m.toStr = .error e → out.result = .error e) ∧
    (∀ fields, resp.json = .ok (.obj fields) → fields.lookup "message" = none →
      out.result = .error (mkError "Download failed")) ∧
    (∀ fields m, resp.json = .ok (.obj fields) → fields.lookup "message" = some m →
      m.truthy = false → out.result = .error (mkError "Download failed")) ∧
    (∀ e, resp.json = .error e → out.result = .error e) ∧
    (∃ e, out.result = .error e ∧ out.console = [("Download failed:", e)]) ∧
    out.effects = [] ∧ out.result ≠ .ok true := by
  intro out
  have htry := downloadFileTry_of_not_ok env url data filename resp hfetch hok
  have hgen : ∀ fields m text, resp.json = .ok (.obj fields) →
      fields.lookup "message" = some m → m.truthy = true → m.toStr = .ok text →
      out.result = .error (mkError text) := by
    intro fields m text hj hl ht hs
    show (downloadFile env url data filename).result = _
    simp [downloadFile, htry, hj, getMessage, hl, ht, hs]
  have hrej : ∃ e, downloadFileTry env url data filename = .error e := by
    rw [htry]
    cases resp.json with
    | error e => exact ⟨e, rfl⟩
    | ok errorData =>
      cases hm : getMessage errorData with
      | error e => exact ⟨e, by simp [hm]⟩
      | ok msg =>
        cases msg with
        | none => exact ⟨mkError "Download failed", by simp [hm]⟩
        | some m =>
          cases ht : m.truthy
          · exact ⟨mkError "Download failed", by simp [hm, ht]⟩
          · cases hs : m.toStr with
            | error e => exact ⟨e, by simp [hm, ht, hs]⟩
            | ok text => exact ⟨mkError text, by simp [hm, ht, hs]⟩
  obtain ⟨e0, he0⟩ := hrej
  refine ⟨?_, hgen, ?_, ?_, ?_, ?_, ⟨e0, ?_, ?_⟩, ?_, ?_⟩
  · intro fields m hj hl hm
    exact hgen fields (.str m) m hj hl ((truthyStr_iff m).mpr hm) rfl
  · intro fields m e hj hl ht hs
    show (downloadFile env url data filename).result = _
    simp [downloadFile, htry, hj, getMessage, hl, ht, hs]
  · intro fields hj hl
    show (downloadFile env url data filename).result = _
    simp [downloadFile, htry, hj, getMessage, hl]
  · intro fields m hj hl ht
    show (downloadFile env url data filename).result = _
    simp [downloadFile, htry, hj, getMessage, hl, ht]
  · intro e hj
    show (downloadFile env url data filename).result = _
    simp [downloadFile, htry, hj]
  · show (downloadFile env url data filename).result = _
    simp [downloadFile, he0]
  · show (downloadFile env url data filename).console = _
    simp [downloadFile, he0]
  · show (downloadFile env url data filename).effects = _
    simp [downloadFile, he0]
  · show (downloadFile env url data filename).result ≠ _
    simp [downloadFile, he0]

/-- C3 amended, at an endpoint that answers 500 with the body
`{"message":"boom"}`. -/
theorem downloadFile_non2xx_witness :
    (downloadFile (respondWith 500 (.ok (.obj [("message", .str "boom")]))) "/download"
        (.obj []) "f.txt").result = .error (mkError "boom") :=
  (downloadFile_non2xx (respondWith 500 (.ok (.obj [("message", .str "boom")]))) "/download"
    (.obj []) "f.txt" ⟨500, .ok (.obj [("message", .str "boom")]), .ok ⟨[]⟩⟩ rfl
    (by decide)).1 [("message", .str "boom")] "boom" rfl rfl (by decide)

/-! ## C4: the validity classes of a field -/

theorem blurHandler_atMostOne (e : Element) (h : e.required = true) :
    atMostOneValidityClass (blurHandler e) = true := by
  cases ht : truthyStr (jsTrim e.value) <;>
    simp [atMostOneValidityClass, blurHandler, h, ht, mem_classAdd, mem_classRemove]

theorem inputHandler_atMostOne (e : Element) (h : atMostOneValidityClass e = true) :
    atMostOneValidityClass (inputHandler e) = true := by
  unfold inputHandler
  split
  · simp [atMostOneValidityClass, mem_classAdd, mem_classRemove]
  · exact h

theorem removeValidityClasses_atMostOne (e : Element) :
    atMostOneValidityClass (removeValidityClasses e) = true := by
  simp [atMostOneValidityClass, removeValidityClasses, mem_classRemove]

/-- C4 fails on the code.  A required input with the value "x" and no
validity class is blurred (it gets `is-valid`), emptied by the user, and the
form is validated: `validateForm` adds `is-invalid` and leaves `is-valid`, so
the field carries both classes. -/
theorem validity_classes_not_exclusive :
    runPage ⟨true, ["name"], [⟨"input", "name", true, "x", "", []⟩]⟩
        [.fire 0 .blur, .fire 0 (.edit ""), .validateForm] =
      ⟨true, ["name"], [⟨"input", "name", true, "", "", ["is-valid", "is-invalid"]⟩]⟩ ∧
    atMostOneValidityClass ⟨"input", "name", true, "", "", ["is-valid", "is-invalid"]⟩ = false := by
  decide

end App
